import Mathlib

/-!
Shallow embedding of the pricing-suggestion engine of the room-bloom-ai
repository (`src/components/pricing/AIPricingSuggestions.tsx`, two variants
of `AIPricingService`, plus the random price-recommendation generator of the
housekeeping calendar component).

Conventions:
* JavaScript numbers are modelled by exact rationals (`ℚ`); the engine's
  multipliers (1.25, 1.15, 0.9, 1.1, 0.95) and all prices stay exact.
* `Math.round x` is `⌊x + 1/2⌋` (round half toward positive infinity).
* Calendar dates are serial day numbers (days since 1970-01-01, a Thursday),
  with `getMonth` (0-based), `getDate` and `getDay` recovered through the
  standard civil-from-days conversion.
* `Array.prototype.sort` with the comparator
  `(a, b) => bImpact - aImpact` is a stable sort by descending score; it is
  modelled by `List.insertionSort`, which is stable for this total preorder.
-/

/-- Days since 1970-01-01 to `(year, month 1-12, day 1-31)` in the proleptic
Gregorian calendar (Hinnant's civil-from-days algorithm, specialised to
non-negative serial numbers). -/
def civilFromDays (z : Nat) : Nat × Nat × Nat :=
  let days := z + 719468
  let era := days / 146097
  let doe := days % 146097
  let yoe := (doe - doe / 1460 + doe / 36524 - doe / 146096) / 365
  let y := yoe + era * 400
  let doy := doe - (365 * yoe + yoe / 4 - yoe / 100)
  let mp := (5 * doy + 2) / 153
  let d := doy - (153 * mp + 2) / 5 + 1
  let m := if mp < 10 then mp + 3 else mp - 9
  (if m ≤ 2 then y + 1 else y, m, d)

/-- The date attributes the engine reads off a `Date` object:
`getMonth()` (0-based), `getDate()` (1-based) and `getDay()`
(0 = Sunday … 6 = Saturday). -/
structure DateAttrs where
  month : Nat
  day : Nat
  dayOfWeek : Nat
deriving DecidableEq, Repr

/-- Attributes of the serial date `z` (days since 1970-01-01).
1970-01-01 was a Thursday, so `getDay = (z + 4) % 7`. -/
def dateAttrs (z : Nat) : DateAttrs :=
  let c := civilFromDays z
  ⟨c.2.1 - 1, c.2.2, (z + 4) % 7⟩

/-- `Property` as selected from the backend
(`id, name, base_price, currency`). -/
structure Property where
  id : String
  name : String
  base_price : ℚ
  currency : String
deriving DecidableEq, Repr

/-- Impact classification of a suggestion. -/
inductive Impact where
  | increase
  | decrease
  | maintain
deriving DecidableEq, Repr

/-- The per-date record pushed by `generateSmartSuggestions` /
`generateSmartFallback` before the property fields are attached. -/
structure SuggestionRec where
  date : Nat
  suggestedPrice : ℤ
  confidence : ℤ
  reasoning : String
  factors : List String
  impact : Impact
deriving DecidableEq, Repr

/-- The full `AIPricingSuggestion` record. -/
structure AIPricingSuggestion where
  propertyId : String
  propertyName : String
  date : Nat
  currentPrice : ℚ
  suggestedPrice : ℤ
  confidence : ℤ
  reasoning : String
  factors : List String
  impact : Impact
  ruleType : String
deriving DecidableEq, Repr

/-- `Math.round`: round half toward positive infinity. -/
def jsRound (q : ℚ) : ℤ := ⌊q + 1 / 2⌋

/-- JavaScript `String.prototype.includes`: substring containment. -/
def strContains (s pat : String) : Bool :=
  s.data.tails.any (fun t => pat.data.isPrefixOf t)

/-- Holiday table of the first (main) `AIPricingService` variant:
Christmas, New Year, July 4th, Christmas Eve, New Year's Eve, Halloween,
as `(getMonth, getDate)` pairs. -/
def mainHolidays : List (Nat × Nat) :=
  [(11, 25), (0, 1), (6, 4), (11, 24), (11, 31), (9, 31)]

/-- Holiday table of the fallback variant: Christmas, New Year, July 4th. -/
def fbHolidays : List (Nat × Nat) :=
  [(11, 25), (0, 1), (6, 4)]

/-- `isHoliday`: some table entry matches the date's month and day. -/
def isHolidayB (table : List (Nat × Nat)) (a : DateAttrs) : Bool :=
  table.any (fun h => a.month == h.1 && a.day == h.2)

/-- The mutable state threaded through the rule sequence of the per-date
loop body: `multiplier`, `reasoning`, `factors`, `impact`. -/
structure RuleState where
  multiplier : ℚ
  reasoning : String
  factors : List String
  impact : Impact
deriving DecidableEq, Repr

/-- Initial state of each date iteration. -/
def initialState : RuleState :=
  ⟨1, "Standard pricing maintained", ["baseline"], .maintain⟩

/-- Weekend premium rule (`dayOfWeek === 5 || dayOfWeek === 6`). -/
def weekendRule (isWeekend : Bool) (st : RuleState) : RuleState :=
  if isWeekend then
    ⟨st.multiplier * (5 / 4), "Weekend premium - higher leisure demand",
      ["weekend", "demand"], .increase⟩
  else st

/-- Holiday premium rule. -/
def holidayRule (isHoliday : Bool) (st : RuleState) : RuleState :=
  if isHoliday then
    ⟨st.multiplier * (23 / 20),
      st.reasoning ++
        (if strContains st.reasoning "Weekend" then " + holiday period"
         else "Holiday period pricing"),
      st.factors ++ ["holiday"], .increase⟩
  else st

/-- Last-minute discount rule for non-peak days. -/
def lastMinuteRule (isLastMinute isWeekend isHoliday : Bool)
    (st : RuleState) : RuleState :=
  if isLastMinute && !isWeekend && !isHoliday then
    ⟨st.multiplier * (9 / 10), "Last-minute discount to boost occupancy",
      ["last_minute", "occupancy"], .decrease⟩
  else st

/-- Summer seasonal rule (`month >= 5 && month <= 8`, 0-based months, i.e.
June through September). -/
def summerRule (month : Nat) (st : RuleState) : RuleState :=
  if 5 ≤ month && month ≤ 8 then
    ⟨st.multiplier * (11 / 10),
      st.reasoning ++
        (if strContains st.reasoning "premium" then ""
         else " + summer season adjustment"),
      st.factors ++ ["seasonal"], st.impact⟩
  else st

/-- Winter discount rule (`(month >= 11 || month <= 2) && !isHoliday`,
0-based months; only in the main variant). -/
def winterRule (month : Nat) (isHoliday : Bool) (st : RuleState) : RuleState :=
  if (11 ≤ month || month ≤ 2) && !isHoliday then
    ⟨st.multiplier * (19 / 20),
      st.reasoning ++
        (if strContains st.reasoning "discount" then ""
         else " + winter season adjustment"),
      st.factors ++ ["seasonal"],
      if st.impact = .maintain then .decrease else st.impact⟩
  else st

/-- The rule sequence of the main variant's per-date loop body
(weekend, holiday, last-minute, summer, winter). -/
def computeAdjustment (a : DateAttrs) (index : Nat) : RuleState :=
  let isWeekend := a.dayOfWeek == 5 || a.dayOfWeek == 6
  let isHoliday := isHolidayB mainHolidays a
  let isLastMinute := decide (index ≤ 2)
  winterRule a.month isHoliday
    (summerRule a.month
      (lastMinuteRule isLastMinute isWeekend isHoliday
        (holidayRule isHoliday
          (weekendRule isWeekend initialState))))

/-- The rule sequence of the fallback variant's per-date loop body:
same rules but no winter rule and the smaller holiday table. -/
def fbComputeAdjustment (a : DateAttrs) (index : Nat) : RuleState :=
  let isWeekend := a.dayOfWeek == 5 || a.dayOfWeek == 6
  let isHoliday := isHolidayB fbHolidays a
  let isLastMinute := decide (index ≤ 2)
  summerRule a.month
    (lastMinuteRule isLastMinute isWeekend isHoliday
      (holidayRule isHoliday
        (weekendRule isWeekend initialState)))

/-- `calculateConfidence` of the main variant: base 75, +15 weekend,
+10 holiday, +5 seasonal factor, −10 last-minute factor, +5 for more than
two factors, clamped by `Math.min(95, Math.max(60, confidence))`.
The arithmetic is integer throughout, so the result is modelled in `ℤ`. -/
def calculateConfidence (factors : List String)
    (isWeekend isHoliday : Bool) : ℤ :=
  let c : ℤ := 75
  let c := if isWeekend then c + 15 else c
  let c := if isHoliday then c + 10 else c
  let c := if factors.contains "seasonal" then c + 5 else c
  let c := if factors.contains "last_minute" then c - 10 else c
  let c := if 2 < factors.length then c + 5 else c
  min 95 (max 60 c)

/-- `calculateConfidence` of the fallback variant: same but without the
multiple-factor bonus. -/
def fbCalculateConfidence (factors : List String)
    (isWeekend isHoliday : Bool) : ℤ :=
  let c : ℤ := 75
  let c := if isWeekend then c + 15 else c
  let c := if isHoliday then c + 10 else c
  let c := if factors.contains "seasonal" then c + 5 else c
  let c := if factors.contains "last_minute" then c - 10 else c
  min 95 (max 60 c)

/-- `getNext14Days`: the serial dates `today + 1 … today + 14`. -/
def getNext14Days (today : Nat) : List Nat :=
  (List.range 14).map (fun i => today + (i + 1))

/-- One iteration of the main variant's `dates.forEach` body: compute the
adjusted state, round the price, and push a record only when the rounded
suggested price differs from the base price. -/
def evalDate (basePrice : ℚ) (d : Nat) (index : Nat) : Option SuggestionRec :=
  let a := dateAttrs d
  let isWeekend := a.dayOfWeek == 5 || a.dayOfWeek == 6
  let isHoliday := isHolidayB mainHolidays a
  let st := computeAdjustment a index
  let suggestedPrice := jsRound (basePrice * st.multiplier)
  if (suggestedPrice : ℚ) ≠ basePrice then
    some ⟨d, suggestedPrice,
      calculateConfidence st.factors isWeekend isHoliday,
      st.reasoning, st.factors, st.impact⟩
  else none

/-- One iteration of the fallback variant's `dates.forEach` body. -/
def fbEvalDate (basePrice : ℚ) (d : Nat) (index : Nat) : Option SuggestionRec :=
  let a := dateAttrs d
  let isWeekend := a.dayOfWeek == 5 || a.dayOfWeek == 6
  let isHoliday := isHolidayB fbHolidays a
  let st := fbComputeAdjustment a index
  let suggestedPrice := jsRound (basePrice * st.multiplier)
  if (suggestedPrice : ℚ) ≠ basePrice then
    some ⟨d, suggestedPrice,
      fbCalculateConfidence st.factors isWeekend isHoliday,
      st.reasoning, st.factors, st.impact⟩
  else none

/-- `generateSmartSuggestions` of the main variant: iterate the loop body
over `getNext14Days` with its index (the date at `index` is
`today + (index + 1)`). -/
def generateSmartSuggestions (p : Property) (today : Nat) : List SuggestionRec :=
  (List.range 14).filterMap (fun index =>
    evalDate p.base_price (today + (index + 1)) index)

/-- `determineRuleType`: priority weekend > seasonal > holiday (event) >
last-minute (demand) > occupancy. -/
def determineRuleType (factors : List String) : String :=
  if factors.contains "weekend" then "weekend"
  else if factors.contains "seasonal" then "seasonal"
  else if factors.contains "holiday" then "event"
  else if factors.contains "last_minute" then "demand"
  else "occupancy"

/-- Attach the property fields to a per-date record, as in the
`response.suggestions?.map(...)` of `generatePricingSuggestions`
(identical in both variants). -/
def toAIS (p : Property) (s : SuggestionRec) : AIPricingSuggestion :=
  ⟨p.id, p.name, s.date, p.base_price, s.suggestedPrice, s.confidence,
    s.reasoning, s.factors, s.impact, determineRuleType s.factors⟩

/-- Estimated revenue impact used by the main variant's sort comparator:
`Math.abs(suggestedPrice - currentPrice) * (confidence / 100)`. -/
def score (s : AIPricingSuggestion) : ℚ :=
  |(s.suggestedPrice : ℚ) - s.currentPrice| * ((s.confidence : ℚ) / 100)

/-- The order the comparator `(a, b) => bImpact - aImpact` establishes:
`a` may precede `b` when `score b ≤ score a` (descending score). -/
def scoreRel (a b : AIPricingSuggestion) : Prop := score b ≤ score a

instance : DecidableRel scoreRel :=
  fun a b => inferInstanceAs (Decidable (score b ≤ score a))

instance : IsTotal AIPricingSuggestion scoreRel :=
  ⟨fun a b => le_total (score b) (score a)⟩

instance : IsTrans AIPricingSuggestion scoreRel :=
  ⟨fun _ _ _ hab hbc => le_trans hbc hab⟩

/-- All suggestions of all properties, in property order then date order
(the `allSuggestions` accumulator before sorting). -/
def allSuggestions (props : List Property) (today : Nat) :
    List AIPricingSuggestion :=
  props.flatMap (fun p => (generateSmartSuggestions p today).map (toAIS p))

/-- `generatePricingSuggestions` of the main variant: stable-sort all
suggestions by descending revenue impact and keep the first 12. -/
def generatePricingSuggestions (props : List Property) (today : Nat) :
    List AIPricingSuggestion :=
  (List.insertionSort scoreRel (allSuggestions props today)).take 12

/-- Decimal digits of `n` (most significant first); `fuel` bounds the
recursion and is instantiated with `n + 1`. -/
def natDigitsAux : Nat → Nat → List Char
  | 0, _ => []
  | fuel + 1, n =>
    if n < 10 then [Char.ofNat (48 + n)]
    else natDigitsAux fuel (n / 10) ++ [Char.ofNat (48 + n % 10)]

/-- Decimal string of a natural number. -/
def natToStr (n : Nat) : String := String.mk (natDigitsAux (n + 1) n)

/-- Rendering of a number into a template literal, as JavaScript prints it:
exact for integers (the only values this development evaluates); for
non-integers, integer part, a dot, and up to 17 fractional digits. -/
def jsNumToString (q : ℚ) : String :=
  let sign := if q.num < 0 then "-" else ""
  let intDigits := natToStr (q.num.natAbs / q.den)
  if q.den = 1 then sign ++ intDigits
  else
    let frac := natDigitsAux 17 (q.num.natAbs % q.den * 10 ^ 17 / q.den)
    sign ++ intDigits ++ "." ++ String.mk frac

/-- `parseInt` on a non-empty run of decimal digits. -/
def parseDigits (ds : List Char) : Nat :=
  ds.foldl (fun n c => 10 * n + (c.toNat - 48)) 0

/-- Scan for the first position where `marker` is followed by at least one
digit, and return that digit run's value (the regex
search for the marker followed by a digit group). -/
def extractAux (marker : List Char) : List Char → Option Nat
  | [] => none
  | c :: rest =>
    if marker.isPrefixOf (c :: rest) then
      let ds := ((c :: rest).drop marker.length).takeWhile Char.isDigit
      if ds.isEmpty then extractAux marker rest else some (parseDigits ds)
    else extractAux marker rest

/-- `extractBasePriceFromPrompt`: first match of the pattern
Base Price dollar-digits in the prompt, else the default 100. -/
def extractBasePriceFromPrompt (prompt : String) : Nat :=
  match extractAux "Base Price: $".data prompt.data with
  | some n => n
  | none => 100

/-- `buildPricingPrompt` (trimmed template literal). The display-only
optional `type`/`location` fields are not part of the modelled `Property`,
so the template's default literals appear. -/
def buildPricingPrompt (p : Property) : String :=
  "Property: " ++ p.name ++
  "\nType: accommodation\nBase Price: $" ++ jsNumToString p.base_price ++
  "\nLocation: Unknown" ++
  "\nAnalyze pricing for the next 14 days considering:" ++
  "\n- Weekend/weekday patterns" ++
  "\n- Seasonal factors" ++
  "\n- Market demand" ++
  "\n- Last-minute opportunities" ++
  "\nReturn suggestions for dates where price should change."

/-- `generateSmartFallback`: the deterministic heuristic of the fallback
variant, run on the base price extracted from the prompt over the
14-day horizon. -/
def generateSmartFallback (prompt : String) (today : Nat) : List SuggestionRec :=
  (List.range 14).filterMap (fun index =>
    fbEvalDate (extractBasePriceFromPrompt prompt : ℚ)
      (today + (index + 1)) index)

/-- Possible outcomes of the external AI fetch: network failure, a non-OK
status, a response whose body is not JSON, or a parsed JSON value (whose
optional `suggestions` field is a list of records). -/
inductive FetchOutcome where
  | netError
  | badStatus
  | badJson
  | ok (v : Option (List SuggestionRec))

/-- The try-block of `callAI` without its catch handler: each failure mode
is an error, a parsed response is returned as is. -/
def callAIBody (outcome : FetchOutcome) :
    Except String (Option (List SuggestionRec)) :=
  match outcome with
  | .netError => .error "fetch failed"
  | .badStatus => .error "AI service unavailable"
  | .badJson => .error "response body is not JSON"
  | .ok v => .ok v

/-- Whether the outcome makes the try-block raise. -/
def FetchOutcome.isFailure : FetchOutcome → Bool
  | .ok _ => false
  | _ => true

/-- `callAI`: run the try-block; any caught error is replaced by the
result of `generateSmartFallback` on the same prompt. -/
def callAI (outcome : FetchOutcome) (prompt : String) (today : Nat) :
    Option (List SuggestionRec) :=
  match callAIBody outcome with
  | .ok v => v
  | .error _ => some (generateSmartFallback prompt today)

/-- `generatePricingSuggestions` of the fallback variant: per property,
build the prompt, call the AI (with its fallback), attach property fields
to each returned record (`|| []` when `suggestions` is absent), and keep
the first 10 — no sorting. `outcomes` maps each request body to the
external service's behaviour. -/
def fbGeneratePricingSuggestions (props : List Property) (today : Nat)
    (outcomes : String → FetchOutcome) : List AIPricingSuggestion :=
  (props.flatMap (fun p =>
    let prompt := buildPricingPrompt p
    ((callAI (outcomes prompt) prompt today).getD []).map (toAIS p))).take 10

/-- The purely deterministic pipeline the spec designates as the fallback:
the fallback heuristic applied per property, first 10 kept. -/
def fbFallbackPipeline (props : List Property) (today : Nat) :
    List AIPricingSuggestion :=
  (props.flatMap (fun p =>
    (generateSmartFallback (buildPricingPrompt p) today).map (toAIS p))).take 10

/-- `conditions` payload of a pricing-rule record. -/
structure PricingRuleConditions where
  dates : List Nat
  original_price : ℚ
  ai_confidence : ℤ
  factors : List String
deriving DecidableEq, Repr

/-- A record inserted into the `pricing_rules` table. -/
structure PricingRuleRecord where
  property_id : String
  rule_type : String
  rule_name : String
  conditions : PricingRuleConditions
  price_adjustment : ℚ
  is_percentage : Bool
  is_active : Bool
deriving DecidableEq, Repr

/-- The record `applyPricingSuggestion` builds from an accepted
suggestion. -/
def buildPricingRule (s : AIPricingSuggestion) : PricingRuleRecord :=
  ⟨s.propertyId, s.ruleType, "AI Suggestion - " ++ s.reasoning,
    ⟨[s.date], s.currentPrice, s.confidence, s.factors⟩,
    (s.suggestedPrice : ℚ) - s.currentPrice, false, true⟩

/-- `applyPricingSuggestion`: the list of records the handler inserts for
one accepted suggestion (a single insert call with a single record). -/
def applyPricingSuggestion (s : AIPricingSuggestion) :
    List PricingRuleRecord :=
  [buildPricingRule s]

/-- Demand classification of the housekeeping calendar's price
recommendations. -/
inductive Demand where
  | low
  | medium
  | high
deriving DecidableEq, Repr

/-- A `PriceRecommendation` of the housekeeping calendar component. -/
structure PriceRecommendation where
  date : Nat
  recommendedPrice : ℤ
  demand : Demand
deriving DecidableEq, Repr

/-- Loop of `generatePriceRecommendations`: the k-th date consumes the
next two values of the `Math.random()` stream `rand` (seasonal then
demand multiplier). -/
def genPriceRecsAux (rand : Nat → ℚ) :
    List (Nat × Bool) → Nat → List PriceRecommendation
  | [], _ => []
  | d :: rest, k =>
    let basePrice : ℚ := 100
    let weekendMultiplier : ℚ := if d.2 then 13 / 10 else 1
    let seasonalMultiplier := rand (2 * k) * (2 / 5) + 4 / 5
    let demandMultiplier := rand (2 * k + 1) * (3 / 5) + 7 / 10
    let recommendedPrice :=
      jsRound (basePrice * weekendMultiplier * seasonalMultiplier *
        demandMultiplier)
    let demand : Demand :=
      if 11 / 10 < demandMultiplier then .high
      else if 9 / 10 < demandMultiplier then .medium
      else .low
    ⟨d.1, recommendedPrice, demand⟩ :: genPriceRecsAux rand rest (k + 1)

/-- `generatePriceRecommendations` of the housekeeping calendar
(`part_002`): per date of the range (with its weekend flag), a price built
from the weekend multiplier and two multipliers drawn from
`Math.random()`, modelled by the explicit stream `rand`. -/
def generatePriceRecommendations (dateRange : List (Nat × Bool))
    (rand : Nat → ℚ) : List PriceRecommendation :=
  genPriceRecsAux rand dateRange 0

/-- Concrete property used by the evaluation witnesses. -/
def prop1 : Property := ⟨"p1", "Prop", 100, "USD"⟩

/-- Record constructor for the concrete suggestions of `prop1`. -/
def mkSug (d : Nat) (sp c : ℤ) (re : String) (fs : List String)
    (im : Impact) (rt : String) : AIPricingSuggestion :=
  ⟨"p1", "Prop", d, 100, sp, c, re, fs, im, rt⟩

/-- Reasoning string of a last-minute summer suggestion. -/
def lmR : String :=
  "Last-minute discount to boost occupancy + summer season adjustment"

/-- Reasoning string of a weekend suggestion. -/
def wkR : String := "Weekend premium - higher leisure demand"

/-- Reasoning string of a baseline summer suggestion. -/
def blR : String := "Standard pricing maintained + summer season adjustment"

/-- Factors of a last-minute summer suggestion. -/
def lmF : List String := ["last_minute", "occupancy", "seasonal"]

/-- Factors of a weekend summer suggestion. -/
def wkF : List String := ["weekend", "demand", "seasonal"]

/-- Factors of a baseline summer suggestion. -/
def blF : List String := ["baseline", "seasonal"]

/-- The suggestion for 2025-07-09 (second last-minute date of the horizon
starting after 2025-07-07, Monday) that the main variant drops when
truncating to twelve. -/
def sDropped : AIPricingSuggestion := mkSug 20278 99 75 lmR lmF .decrease "seasonal"

/-- The weekend suggestion for 2025-07-11 that the main variant keeps. -/
def tKept : AIPricingSuggestion := mkSug 20280 138 95 wkR wkF .increase "weekend"

set_option maxRecDepth 4000 in
theorem allSuggestionsEval : allSuggestions [prop1] 20276 =
    [mkSug 20277 99 75 lmR lmF .decrease "seasonal",
     sDropped,
     mkSug 20279 99 75 lmR lmF .decrease "seasonal",
     tKept,
     mkSug 20281 138 95 wkR wkF .increase "weekend",
     mkSug 20282 110 80 blR blF .maintain "seasonal",
     mkSug 20283 110 80 blR blF .maintain "seasonal",
     mkSug 20284 110 80 blR blF .maintain "seasonal",
     mkSug 20285 110 80 blR blF .maintain "seasonal",
     mkSug 20286 110 80 blR blF .maintain "seasonal",
     mkSug 20287 138 95 wkR wkF .increase "weekend",
     mkSug 20288 138 95 wkR wkF .increase "weekend",
     mkSug 20289 110 80 blR blF .maintain "seasonal",
     mkSug 20290 110 80 blR blF .maintain "seasonal"] := by
  with_unfolding_all rfl

set_option maxRecDepth 4000 in
theorem mainPipelineEval : generatePricingSuggestions [prop1] 20276 =
    [tKept,
     mkSug 20281 138 95 wkR wkF .increase "weekend",
     mkSug 20287 138 95 wkR wkF .increase "weekend",
     mkSug 20288 138 95 wkR wkF .increase "weekend",
     mkSug 20282 110 80 blR blF .maintain "seasonal",
     mkSug 20283 110 80 blR blF .maintain "seasonal",
     mkSug 20284 110 80 blR blF .maintain "seasonal",
     mkSug 20285 110 80 blR blF .maintain "seasonal",
     mkSug 20286 110 80 blR blF .maintain "seasonal",
     mkSug 20289 110 80 blR blF .maintain "seasonal",
     mkSug 20290 110 80 blR blF .maintain "seasonal",
     mkSug 20277 99 75 lmR lmF .decrease "seasonal"] := by
  with_unfolding_all rfl

set_option maxRecDepth 4000 in
theorem fbPipelineEval :
    fbGeneratePricingSuggestions [prop1] 20276 (fun _ => .netError) =
    [mkSug 20277 99 70 lmR lmF .decrease "seasonal",
     mkSug 20278 99 70 lmR lmF .decrease "seasonal",
     mkSug 20279 99 70 lmR lmF .decrease "seasonal",
     mkSug 20280 138 95 wkR wkF .increase "weekend",
     mkSug 20281 138 95 wkR wkF .increase "weekend",
     mkSug 20282 110 80 blR blF .maintain "seasonal",
     mkSug 20283 110 80 blR blF .maintain "seasonal",
     mkSug 20284 110 80 blR blF .maintain "seasonal",
     mkSug 20285 110 80 blR blF .maintain "seasonal",
     mkSug 20286 110 80 blR blF .maintain "seasonal"] := by
  with_unfolding_all rfl

theorem clamp_bounds (c : ℤ) :
    60 ≤ min 95 (max 60 c) ∧ min 95 (max 60 c) ≤ 95 :=
  ⟨le_min (by norm_num) (le_max_left _ _), min_le_left _ _⟩

theorem calculateConfidence_bounds (f : List String) (w h : Bool) :
    60 ≤ calculateConfidence f w h ∧ calculateConfidence f w h ≤ 95 := by
  unfold calculateConfidence
  exact clamp_bounds _

theorem fbCalculateConfidence_bounds (f : List String) (w h : Bool) :
    60 ≤ fbCalculateConfidence f w h ∧ fbCalculateConfidence f w h ≤ 95 := by
  unfold fbCalculateConfidence
  exact clamp_bounds _

theorem evalDate_some_eq {b : ℚ} {d i : Nat} {s : SuggestionRec}
    (h : evalDate b d i = some s) :
    s = ⟨d, jsRound (b * (computeAdjustment (dateAttrs d) i).multiplier),
        calculateConfidence (computeAdjustment (dateAttrs d) i).factors
          ((dateAttrs d).dayOfWeek == 5 || (dateAttrs d).dayOfWeek == 6)
          (isHolidayB mainHolidays (dateAttrs d)),
        (computeAdjustment (dateAttrs d) i).reasoning,
        (computeAdjustment (dateAttrs d) i).factors,
        (computeAdjustment (dateAttrs d) i).impact⟩ := by
  simp only [evalDate] at h
  split at h
  · exact (Option.some.inj h).symm
  · cases h

theorem evalDate_date_ne {b : ℚ} {d i : Nat} {s : SuggestionRec}
    (h : evalDate b d i = some s) :
    s.date = d ∧ (s.suggestedPrice : ℚ) ≠ b := by
  simp only [evalDate] at h
  split at h
  · cases h
    refine ⟨rfl, ?_⟩
    assumption
  · cases h

theorem evalDate_price {b : ℚ} {d i : Nat} {s : SuggestionRec}
    (h : evalDate b d i = some s) :
    s.suggestedPrice =
      jsRound (b * (computeAdjustment (dateAttrs d) i).multiplier) := by
  simp only [evalDate] at h
  split at h
  · cases h
    rfl
  · cases h

theorem evalDate_conf {b : ℚ} {d i : Nat} {s : SuggestionRec}
    (h : evalDate b d i = some s) :
    s.confidence =
      calculateConfidence (computeAdjustment (dateAttrs d) i).factors
        ((dateAttrs d).dayOfWeek == 5 || (dateAttrs d).dayOfWeek == 6)
        (isHolidayB mainHolidays (dateAttrs d)) := by
  simp only [evalDate] at h
  split at h
  · cases h
    rfl
  · cases h

theorem evalDate_of_ne {b : ℚ} {d i : Nat}
    (hne : (jsRound (b * (computeAdjustment (dateAttrs d) i).multiplier) : ℚ)
      ≠ b) :
    evalDate b d i = some
      ⟨d, jsRound (b * (computeAdjustment (dateAttrs d) i).multiplier),
        calculateConfidence (computeAdjustment (dateAttrs d) i).factors
          ((dateAttrs d).dayOfWeek == 5 || (dateAttrs d).dayOfWeek == 6)
          (isHolidayB mainHolidays (dateAttrs d)),
        (computeAdjustment (dateAttrs d) i).reasoning,
        (computeAdjustment (dateAttrs d) i).factors,
        (computeAdjustment (dateAttrs d) i).impact⟩ := by
  simp only [evalDate]
  rw [if_pos hne]
theorem fbEvalDate_eq_some {b : ℚ} {d i : Nat} {s : SuggestionRec}
    (h : fbEvalDate b d i = some s) :
    s.date = d ∧
    (s.suggestedPrice : ℚ) ≠ b ∧
    s.confidence =
      fbCalculateConfidence (fbComputeAdjustment (dateAttrs d) i).factors
        ((dateAttrs d).dayOfWeek == 5 || (dateAttrs d).dayOfWeek == 6)
        (isHolidayB fbHolidays (dateAttrs d)) := by
  simp only [fbEvalDate] at h
  split at h
  · cases h
    refine ⟨rfl, ?_, rfl⟩
    assumption
  · cases h

theorem mem_generateSmartSuggestions {p : Property} {today : Nat}
    {s : SuggestionRec} :
    s ∈ generateSmartSuggestions p today ↔
    ∃ i, i < 14 ∧ evalDate p.base_price (today + (i + 1)) i = some s := by
  unfold generateSmartSuggestions
  simp [List.mem_filterMap]

theorem mem_generateSmartFallback {prompt : String} {today : Nat}
    {s : SuggestionRec} :
    s ∈ generateSmartFallback prompt today ↔
    ∃ i, i < 14 ∧
      fbEvalDate (extractBasePriceFromPrompt prompt : ℚ)
        (today + (i + 1)) i = some s := by
  unfold generateSmartFallback
  simp [List.mem_filterMap]

theorem mem_allSuggestions {props : List Property} {today : Nat}
    {s : AIPricingSuggestion} :
    s ∈ allSuggestions props today ↔
    ∃ p ∈ props, ∃ r ∈ generateSmartSuggestions p today, s = toAIS p r := by
  unfold allSuggestions
  simp [List.mem_flatMap, eq_comm]

theorem mem_of_mem_generatePricingSuggestions {props : List Property}
    {today : Nat} {s : AIPricingSuggestion}
    (h : s ∈ generatePricingSuggestions props today) :
    s ∈ allSuggestions props today := by
  unfold generatePricingSuggestions at h
  exact (List.perm_insertionSort scoreRel _).subset (List.take_subset _ _ h)

theorem callAI_failure {outcome : FetchOutcome} (prompt : String)
    (today : Nat) (h : outcome.isFailure = true) :
    callAI outcome prompt today =
      some (generateSmartFallback prompt today) := by
  cases outcome <;> first
    | rfl
    | exact absurd h (by simp [FetchOutcome.isFailure])

theorem fbGenerate_eq_pipeline (props : List Property) (today : Nat)
    (outcomes : String → FetchOutcome)
    (hfail : ∀ prompt, (outcomes prompt).isFailure = true) :
    fbGeneratePricingSuggestions props today outcomes =
      fbFallbackPipeline props today := by
  have key : ∀ ps : List Property,
      ps.flatMap (fun p =>
        ((callAI (outcomes (buildPricingPrompt p)) (buildPricingPrompt p)
          today).getD []).map (toAIS p)) =
      ps.flatMap (fun p =>
        (generateSmartFallback (buildPricingPrompt p) today).map (toAIS p)) := by
    intro ps
    induction ps with
    | nil => simp only [List.flatMap_nil]
    | cons p rest ih =>
      rw [List.flatMap_cons, List.flatMap_cons, ih,
        callAI_failure _ _ (hfail _), Option.getD_some]
  unfold fbGeneratePricingSuggestions fbFallbackPipeline
  rw [key]

/-- C2: for every input property list and reference date, every emitted
suggestion's confidence lies in the closed interval [60, 95] (it is an
integer by construction: the scorers only add integer bonuses to the base
75, modelled in `ℤ`), and both variants' scorers clamp their
base-75-plus-bonuses sum to [60, 95]; the fallback variant is taken on its
deterministic path (every external-call outcome failing). -/
theorem spec_c2_confidence_bounds :
    (∀ (f : List String) (w h : Bool),
      60 ≤ calculateConfidence f w h ∧ calculateConfidence f w h ≤ 95) ∧
    (∀ (f : List String) (w h : Bool),
      60 ≤ fbCalculateConfidence f w h ∧ fbCalculateConfidence f w h ≤ 95) ∧
    (∀ (props : List Property) (today : Nat) (s : AIPricingSuggestion),
      s ∈ generatePricingSuggestions props today →
      60 ≤ s.confidence ∧ s.confidence ≤ 95) ∧
    (∀ (props : List Property) (today : Nat)
      (outcomes : String → FetchOutcome) (s : AIPricingSuggestion),
      (∀ prompt, (outcomes prompt).isFailure = true) →
      s ∈ fbGeneratePricingSuggestions props today outcomes →
      60 ≤ s.confidence ∧ s.confidence ≤ 95) := by
  refine ⟨calculateConfidence_bounds, fbCalculateConfidence_bounds, ?_, ?_⟩
  · intro props today s hs
    obtain ⟨p, _, r, hr, rfl⟩ :=
      mem_allSuggestions.mp (mem_of_mem_generatePricingSuggestions hs)
    obtain ⟨i, _, hsome⟩ := mem_generateSmartSuggestions.mp hr
    have hc := evalDate_conf hsome
    show 60 ≤ r.confidence ∧ r.confidence ≤ 95
    rw [hc]
    exact calculateConfidence_bounds _ _ _
  · intro props today outcomes s hfail hs
    rw [fbGenerate_eq_pipeline props today outcomes hfail] at hs
    unfold fbFallbackPipeline at hs
    obtain ⟨p, _, r, hr, rfl⟩ := by
      simpa [List.mem_flatMap, eq_comm] using List.take_subset _ _ hs
    obtain ⟨i, _, hsome⟩ := mem_generateSmartFallback.mp hr
    have hc := (fbEvalDate_eq_some hsome).2.2
    show 60 ≤ r.confidence ∧ r.confidence ≤ 95
    rw [hc]
    exact fbCalculateConfidence_bounds _ _ _

/-- C2 witness: a concrete suggestion emitted by the main pipeline, with
its confidence inside the bounds. -/
theorem spec_c2_confidence_bounds_witness :
    tKept ∈ generatePricingSuggestions [prop1] 20276 ∧
    60 ≤ tKept.confidence ∧ tKept.confidence ≤ 95 := by
  have hmem : tKept ∈ generatePricingSuggestions [prop1] 20276 := by
    rw [mainPipelineEval]
    exact List.mem_cons_self _ _
  exact ⟨hmem, spec_c2_confidence_bounds.2.2.1 [prop1] 20276 tKept hmem⟩

/-- C9: for every accepted suggestion the applier issues exactly one
pricing-rule record; its price adjustment is the absolute delta
suggested − current (not a percentage), its rule type is the suggestion's
rule type, and its conditions payload carries the suggestion's date,
original price, confidence and factors. -/
theorem spec_c9_applier (s : AIPricingSuggestion) :
    (applyPricingSuggestion s).length = 1 ∧
    ∀ r ∈ applyPricingSuggestion s,
      r.price_adjustment = (s.suggestedPrice : ℚ) - s.currentPrice ∧
      r.is_percentage = false ∧
      r.rule_type = s.ruleType ∧
      r.property_id = s.propertyId ∧
      r.conditions.dates = [s.date] ∧
      r.conditions.original_price = s.currentPrice ∧
      r.conditions.ai_confidence = s.confidence ∧
      r.conditions.factors = s.factors ∧
      r.is_active = true := by
  refine ⟨rfl, ?_⟩
  intro r hr
  have hre : r = buildPricingRule s := by
    simpa [applyPricingSuggestion] using hr
  subst hre
  exact ⟨rfl, rfl, rfl, rfl, rfl, rfl, rfl, rfl, rfl⟩

/-- C9 witness: the applier run on a concrete accepted suggestion. -/
theorem spec_c9_applier_witness :
    buildPricingRule tKept ∈ applyPricingSuggestion tKept ∧
    (buildPricingRule tKept).price_adjustment =
      ((tKept.suggestedPrice : ℚ) - tKept.currentPrice) := by
  have hmem : buildPricingRule tKept ∈ applyPricingSuggestion tKept :=
    List.mem_cons_self _ _
  exact ⟨hmem, ((spec_c9_applier tKept).2 _ hmem).1⟩

/-- C1: for a property with positive base price, a suggestion is emitted
for a horizon date exactly when the rounded adjusted price differs from
the base price (the date at loop index i is today + (i + 1)); and every
suggestion in the final returned list has suggestedPrice different from
currentPrice, where currentPrice is the owning property's base price. -/
theorem spec_c1_emission (p : Property) (today : Nat)
    (hpos : 0 < p.base_price) :
    (∀ d ∈ getNext14Days today,
      ((∃ s ∈ generateSmartSuggestions p today, s.date = d) ↔
        (jsRound (p.base_price *
          (computeAdjustment (dateAttrs d) (d - (today + 1))).multiplier) : ℚ)
          ≠ p.base_price)) ∧
    (∀ props : List Property, ∀ s ∈ generatePricingSuggestions props today,
      (∃ q ∈ props, s.currentPrice = q.base_price) ∧
      (s.suggestedPrice : ℚ) ≠ s.currentPrice) := by
  constructor
  · intro d hd
    simp only [getNext14Days, List.mem_map, List.mem_range] at hd
    obtain ⟨i, hi, rfl⟩ := hd
    have hidx : today + (i + 1) - (today + 1) = i := by omega
    rw [hidx]
    constructor
    · rintro ⟨s, hs, hdate⟩
      obtain ⟨j, hj, hsome⟩ := mem_generateSmartSuggestions.mp hs
      have hdj := (evalDate_date_ne hsome).1
      have hji : j = i := by omega
      subst hji
      have hne := (evalDate_date_ne hsome).2
      rw [evalDate_price hsome] at hne
      exact hne
    · intro hne
      refine ⟨_, mem_generateSmartSuggestions.mpr ⟨i, hi, evalDate_of_ne hne⟩,
        rfl⟩
  · intro props s hs
    obtain ⟨q, hq, r, hr, rfl⟩ :=
      mem_allSuggestions.mp (mem_of_mem_generatePricingSuggestions hs)
    obtain ⟨i, _, hsome⟩ := mem_generateSmartSuggestions.mp hr
    have hne := (evalDate_date_ne hsome).2
    exact ⟨⟨q, hq, rfl⟩, hne⟩

/-- C1 witness: for the concrete property and reference date, the first
horizon date 2025-07-04 (a Friday, a holiday and a summer date, rounded
price 158 ≠ 100) receives a suggestion. -/
theorem spec_c1_emission_witness :
    (0 : ℚ) < 100 ∧
    ∃ s ∈ generateSmartSuggestions prop1 20272, s.date = 20273 := by
  have h := spec_c1_emission prop1 20272 (by norm_num [prop1])
  refine ⟨by norm_num, ?_⟩
  refine (h.1 20273 (by decide)).mpr ?_
  show (jsRound ((100 : ℚ) *
    (computeAdjustment (dateAttrs 20273) (20273 - (20272 + 1))).multiplier) : ℚ)
    ≠ (100 : ℚ)
  with_unfolding_all decide

theorem weekendRule_false (st : RuleState) : weekendRule false st = st := rfl

theorem holidayRule_false (st : RuleState) : holidayRule false st = st := rfl

theorem lastMinuteRule_of_false {c1 c2 c3 : Bool} (st : RuleState)
    (h : (c1 && !c2 && !c3) = false) :
    lastMinuteRule c1 c2 c3 st = st := by
  simp only [lastMinuteRule, h]
  rfl

theorem lastMinuteRule_of_true {c1 c2 c3 : Bool} (st : RuleState)
    (h : (c1 && !c2 && !c3) = true) :
    lastMinuteRule c1 c2 c3 st =
      ⟨st.multiplier * (9 / 10), "Last-minute discount to boost occupancy",
        ["last_minute", "occupancy"], .decrease⟩ := by
  simp only [lastMinuteRule, h]
  rfl

theorem summerRule_of_false {month : Nat} (st : RuleState)
    (h : (5 ≤ month && month ≤ 8) = false) :
    summerRule month st = st := by
  simp only [summerRule, h]
  rfl

theorem summerRule_of_true {month : Nat} (st : RuleState)
    (h : (5 ≤ month && month ≤ 8) = true) :
    summerRule month st =
      ⟨st.multiplier * (11 / 10),
        st.reasoning ++
          (if strContains st.reasoning "premium" then ""
           else " + summer season adjustment"),
        st.factors ++ ["seasonal"], st.impact⟩ := by
  simp only [summerRule, h]
  rfl

theorem winterRule_of_false {month : Nat} {hol : Bool} (st : RuleState)
    (h : ((11 ≤ month || month ≤ 2) && !hol) = false) :
    winterRule month hol st = st := by
  simp only [winterRule, h]
  rfl

theorem winterRule_of_true {month : Nat} {hol : Bool} (st : RuleState)
    (h : ((11 ≤ month || month ≤ 2) && !hol) = true) :
    winterRule month hol st =
      ⟨st.multiplier * (19 / 20),
        st.reasoning ++
          (if strContains st.reasoning "discount" then ""
           else " + winter season adjustment"),
        st.factors ++ ["seasonal"],
        if st.impact = .maintain then .decrease else st.impact⟩ := by
  simp only [winterRule, h]
  rfl

theorem computeAdjustment_summer_weekday (a : DateAttrs) (i : Nat)
    (h5 : a.dayOfWeek ≠ 5) (h6 : a.dayOfWeek ≠ 6)
    (hhol : isHolidayB mainHolidays a = false)
    (hm1 : 5 ≤ a.month) (hm2 : a.month ≤ 8) (hlm : 2 < i) :
    computeAdjustment a i =
      ⟨1 * (11 / 10),
        "Standard pricing maintained + summer season adjustment",
        ["baseline", "seasonal"], .maintain⟩ := by
  have hw : (a.dayOfWeek == 5 || a.dayOfWeek == 6) = false := by
    simp [h5, h6]
  have hsm : (5 ≤ a.month && a.month ≤ 8) = true := by
    simp [hm1, hm2]
  simp only [computeAdjustment, hw, hhol]
  rw [weekendRule_false, holidayRule_false,
    lastMinuteRule_of_false _ (by
      have hz : ¬ i ≤ 2 := by omega
      simp [hz]),
    summerRule_of_true _ hsm,
    winterRule_of_false _ (by
      have hx : ¬ 11 ≤ a.month := by omega
      have hy : ¬ a.month ≤ 2 := by omega
      simp [hx, hy])]
  rfl

/-- C10: in a summer month (June–September), on a day that is neither a
weekend nor a holiday nor within the first 3 horizon days, the summer rule
raises the multiplier to 1.1 without touching the impact classification,
so when round(basePrice × 1.1) differs from basePrice the engine emits a
suggestion whose impact is still maintain although its suggested price
differs from the current price. -/
theorem spec_c10_summer_maintain (p : Property) (today i : Nat)
    (hi : i < 14) (hlm : 2 < i)
    (hm1 : 5 ≤ (dateAttrs (today + (i + 1))).month)
    (hm2 : (dateAttrs (today + (i + 1))).month ≤ 8)
    (h5 : (dateAttrs (today + (i + 1))).dayOfWeek ≠ 5)
    (h6 : (dateAttrs (today + (i + 1))).dayOfWeek ≠ 6)
    (hhol : isHolidayB mainHolidays (dateAttrs (today + (i + 1))) = false)
    (hprice : (jsRound (p.base_price * (1 * (11 / 10))) : ℚ) ≠ p.base_price) :
    ∃ s ∈ generateSmartSuggestions p today,
      s.date = today + (i + 1) ∧ s.impact = .maintain ∧
      (s.suggestedPrice : ℚ) ≠ p.base_price := by
  have hadj := computeAdjustment_summer_weekday
    (dateAttrs (today + (i + 1))) i h5 h6 hhol hm1 hm2 hlm
  have hne : (jsRound (p.base_price *
      (computeAdjustment (dateAttrs (today + (i + 1))) i).multiplier) : ℚ)
      ≠ p.base_price := by
    rw [hadj]
    exact hprice
  refine ⟨_, mem_generateSmartSuggestions.mpr ⟨i, hi, evalDate_of_ne hne⟩,
    rfl, ?_, ?_⟩
  · rw [hadj]
  · rw [hadj]
    exact hprice

/-- C10 witness: property with base price 100, today 2025-07-03, horizon
index 5 (2025-07-09, a Wednesday in July): emitted price 110 ≠ 100 with
impact maintain. -/
theorem spec_c10_summer_maintain_witness :
    ∃ s ∈ generateSmartSuggestions prop1 20272,
      s.date = 20272 + (5 + 1) ∧ s.impact = .maintain ∧
      (s.suggestedPrice : ℚ) ≠ prop1.base_price := by
  refine spec_c10_summer_maintain prop1 20272 5 (by norm_num) (by norm_num)
    (by decide) (by decide) (by decide) (by decide) (by decide) ?_
  show (jsRound ((100 : ℚ) * (1 * (11 / 10))) : ℚ) ≠ (100 : ℚ)
  with_unfolding_all decide

theorem weekendRule_true (st : RuleState) :
    weekendRule true st =
      ⟨st.multiplier * (5 / 4), "Weekend premium - higher leisure demand",
        ["weekend", "demand"], .increase⟩ := rfl

theorem computeAdjustment_offseason (a : DateAttrs) (i : Nat)
    (h5 : a.dayOfWeek ≠ 5) (h6 : a.dayOfWeek ≠ 6)
    (hhol : isHolidayB mainHolidays a = false)
    (hm : a.month = 3 ∨ a.month = 4 ∨ a.month = 9 ∨ a.month = 10)
    (hlm : 2 < i) :
    computeAdjustment a i = initialState := by
  have hw : (a.dayOfWeek == 5 || a.dayOfWeek == 6) = false := by
    simp [h5, h6]
  have hsm : (5 ≤ a.month && a.month ≤ 8) = false := by
    rcases hm with h | h | h | h <;> simp [h]
  have hwin : ((11 ≤ a.month || a.month ≤ 2) && !false) = false := by
    rcases hm with h | h | h | h <;> simp [h]
  simp only [computeAdjustment, hw, hhol]
  rw [weekendRule_false, holidayRule_false,
    lastMinuteRule_of_false _ (by
      have hz : ¬ i ≤ 2 := by omega
      simp [hz]),
    summerRule_of_false _ hsm, winterRule_of_false _ hwin]

theorem computeAdjustment_march_lastminute (a : DateAttrs) (i : Nat)
    (hm : a.month = 2) (hd : a.dayOfWeek = 2) (hlm : i ≤ 2)
    (hhol : isHolidayB mainHolidays a = false) :
    computeAdjustment a i =
      ⟨1 * (9 / 10) * (19 / 20), "Last-minute discount to boost occupancy",
        ["last_minute", "occupancy", "seasonal"], .decrease⟩ := by
  have hw : (a.dayOfWeek == 5 || a.dayOfWeek == 6) = false := by
    simp [hd]
  have hsm : (5 ≤ a.month && a.month ≤ 8) = false := by simp [hm]
  have hwin : ((11 ≤ a.month || a.month ≤ 2) && !false) = true := by
    simp [hm]
  simp only [computeAdjustment, hw, hhol]
  rw [weekendRule_false, holidayRule_false,
    lastMinuteRule_of_true _ (by simp [hlm]),
    summerRule_of_false _ hsm, winterRule_of_true _ hwin]
  rfl

theorem fbComputeAdjustment_march_lastminute (a : DateAttrs) (i : Nat)
    (hm : a.month = 2) (hd : a.dayOfWeek = 2) (hlm : i ≤ 2)
    (hhol : isHolidayB fbHolidays a = false) :
    fbComputeAdjustment a i =
      ⟨1 * (9 / 10), "Last-minute discount to boost occupancy",
        ["last_minute", "occupancy"], .decrease⟩ := by
  have hw : (a.dayOfWeek == 5 || a.dayOfWeek == 6) = false := by
    simp [hd]
  have hsm : (5 ≤ a.month && a.month ≤ 8) = false := by simp [hm]
  simp only [fbComputeAdjustment, hw, hhol]
  rw [weekendRule_false, holidayRule_false,
    lastMinuteRule_of_true _ (by simp [hlm]),
    summerRule_of_false _ hsm]
  rfl

theorem computeAdjustment_summer_weekend (a : DateAttrs) (i : Nat)
    (hw : a.dayOfWeek = 5 ∨ a.dayOfWeek = 6)
    (hm1 : 5 ≤ a.month) (hm2 : a.month ≤ 8)
    (hhol : isHolidayB mainHolidays a = false) :
    computeAdjustment a i =
      ⟨1 * (5 / 4) * (11 / 10), "Weekend premium - higher leisure demand",
        ["weekend", "demand", "seasonal"], .increase⟩ := by
  have hwB : (a.dayOfWeek == 5 || a.dayOfWeek == 6) = true := by
    rcases hw with h | h <;> simp [h]
  have hsm : (5 ≤ a.month && a.month ≤ 8) = true := by simp [hm1, hm2]
  have hwin : ((11 ≤ a.month || a.month ≤ 2) && !false) = false := by
    have hx : ¬ 11 ≤ a.month := by omega
    have hy : ¬ a.month ≤ 2 := by omega
    simp [hx, hy]
  simp only [computeAdjustment, hwB, hhol]
  rw [weekendRule_true, holidayRule_false,
    lastMinuteRule_of_false _ (by simp),
    summerRule_of_true _ hsm, winterRule_of_false _ hwin]
  rfl

/-- C3 (amended): the winter rule fires exactly when the 0-based month
satisfies month ≥ 11 or month ≤ 2 — that is December, January, February
AND March — and the date is not a holiday; it then multiplies by 0.95,
appends the seasonal factor, and downgrades the impact to decrease only
when it is still maintain. For the months outside both the winter window
and the summer window (April, May, October, November in 0-based months
3, 4, 9, 10) with no weekend, holiday or last-minute flag, the multiplier
stays 1. (The original claim had the winter window as December–February
and March keeping multiplier 1.0; the code's 0-based `month <= 2` check
includes March.) -/
theorem spec_c3_amended :
    (∀ (month : Nat) (hol : Bool) (st : RuleState),
      ((11 ≤ month ∨ month ≤ 2) ∧ hol = false →
        winterRule month hol st =
          ⟨st.multiplier * (19 / 20),
            st.reasoning ++
              (if strContains st.reasoning "discount" then ""
               else " + winter season adjustment"),
            st.factors ++ ["seasonal"],
            if st.impact = .maintain then .decrease else st.impact⟩) ∧
      (¬ ((11 ≤ month ∨ month ≤ 2) ∧ hol = false) →
        winterRule month hol st = st)) ∧
    (∀ (a : DateAttrs) (i : Nat),
      a.month = 3 ∨ a.month = 4 ∨ a.month = 9 ∨ a.month = 10 →
      a.dayOfWeek ≠ 5 → a.dayOfWeek ≠ 6 →
      isHolidayB mainHolidays a = false → 2 < i →
      (computeAdjustment a i).multiplier = 1) := by
  constructor
  · intro month hol st
    constructor
    · rintro ⟨hmon, rfl⟩
      refine winterRule_of_true _ ?_
      rcases hmon with h | h <;> simp [h]
    · intro hneg
      refine winterRule_of_false _ ?_
      cases hol with
      | true => simp
      | false =>
        have hA : ¬ (11 ≤ month ∨ month ≤ 2) := fun hA => hneg ⟨hA, rfl⟩
        obtain ⟨h1, h2⟩ := not_or.mp hA
        simp [h1, h2]
  · intro a i hm h5 h6 hhol hlm
    rw [computeAdjustment_offseason a i h5 h6 hhol hm hlm]
    rfl

/-- C3 counterexample: 2027-03-09 is a Tuesday in March (0-based month 2),
not a holiday, at horizon index 7 (not last-minute); the claim says the
multiplier stays 1.0 there, but the code's winter rule fires and yields
0.95. -/
theorem spec_c3_counterexample :
    (dateAttrs 20886).month = 2 ∧ (dateAttrs 20886).dayOfWeek = 2 ∧
    isHolidayB mainHolidays (dateAttrs 20886) = false ∧
    (computeAdjustment (dateAttrs 20886) 7).multiplier = 19 / 20 ∧
    (computeAdjustment (dateAttrs 20886) 7).multiplier ≠ 1 := by
  with_unfolding_all decide

/-- C3 witness: the winter rule applied to the initial state in January
(month 0), and a concrete April Sunday (2027-04-04, serial 20912) at
index 5 keeping multiplier 1. -/
theorem spec_c3_amended_witness :
    (winterRule 0 false initialState).multiplier =
      initialState.multiplier * (19 / 20) ∧
    (computeAdjustment (dateAttrs 20912) 5).multiplier = 1 := by
  constructor
  · rw [(spec_c3_amended.1 0 false initialState).1 ⟨Or.inr (by norm_num), rfl⟩]
  · exact spec_c3_amended.2 (dateAttrs 20912) 5 (by decide) (by decide)
      (by decide) (by decide) (by norm_num)

/-- C4 (amended): for a Tuesday in March (0-based month 2) within the
first 3 days of the horizon and not a holiday, the main engine's
multiplier is 0.9 × 0.95 = 0.855 — the last-minute rule AND the winter
rule both fire, because the code's winter window `month <= 2` includes
March — with impact decrease; in the fallback variant (which has no winter
rule) the multiplier is exactly 0.9 with impact decrease. (The original
claim asserted multiplier 0.9 with only the last-minute rule applying.) -/
theorem spec_c4_amended (a : DateAttrs) (i : Nat)
    (hm : a.month = 2) (hd : a.dayOfWeek = 2) (hlm : i ≤ 2)
    (hhol : isHolidayB mainHolidays a = false)
    (hfb : isHolidayB fbHolidays a = false) :
    ((computeAdjustment a i).multiplier = 171 / 200 ∧
      (computeAdjustment a i).impact = .decrease) ∧
    ((fbComputeAdjustment a i).multiplier = 9 / 10 ∧
      (fbComputeAdjustment a i).impact = .decrease) := by
  rw [computeAdjustment_march_lastminute a i hm hd hlm hhol,
    fbComputeAdjustment_march_lastminute a i hm hd hlm hfb]
  refine ⟨⟨?_, rfl⟩, ⟨?_, rfl⟩⟩ <;> norm_num

/-- C4 counterexample: 2027-03-02 (serial 20879) is a Tuesday in March at
horizon index 0, not a holiday; the code's multiplier there is 0.855, not
the 0.9 the claim asserts. -/
theorem spec_c4_counterexample :
    (dateAttrs 20879).month = 2 ∧ (dateAttrs 20879).dayOfWeek = 2 ∧
    isHolidayB mainHolidays (dateAttrs 20879) = false ∧
    (computeAdjustment (dateAttrs 20879) 0).impact = .decrease ∧
    (computeAdjustment (dateAttrs 20879) 0).multiplier = 171 / 200 ∧
    (computeAdjustment (dateAttrs 20879) 0).multiplier ≠ 9 / 10 := by
  with_unfolding_all decide

/-- C4 witness: the amended statement evaluated at 2027-03-02, index 0. -/
theorem spec_c4_amended_witness :
    ((computeAdjustment (dateAttrs 20879) 0).multiplier = 171 / 200 ∧
      (computeAdjustment (dateAttrs 20879) 0).impact = .decrease) ∧
    ((fbComputeAdjustment (dateAttrs 20879) 0).multiplier = 9 / 10 ∧
      (fbComputeAdjustment (dateAttrs 20879) 0).impact = .decrease) :=
  spec_c4_amended (dateAttrs 20879) 0 (by decide) (by decide) (by norm_num)
    (by decide) (by decide)

/-- C5 (amended): for a Friday or Saturday in a summer month
(June–September) that is NOT a holiday, the multiplier is exactly
1.25 × 1.10 = 1.375, the factors contain weekend and seasonal, and for
base price 100 the rounded suggested price is 138. (The original claim
omitted the holiday exception: on a summer weekend holiday such as
Friday 2025-07-04 the holiday rule also fires and the multiplier is
1.25 × 1.15 × 1.10 instead.) -/
theorem spec_c5_amended (a : DateAttrs) (i : Nat)
    (hw : a.dayOfWeek = 5 ∨ a.dayOfWeek = 6)
    (hm1 : 5 ≤ a.month) (hm2 : a.month ≤ 8)
    (hhol : isHolidayB mainHolidays a = false) :
    (computeAdjustment a i).multiplier = 11 / 8 ∧
    "weekend" ∈ (computeAdjustment a i).factors ∧
    "seasonal" ∈ (computeAdjustment a i).factors ∧
    jsRound (100 * (computeAdjustment a i).multiplier) = 138 := by
  rw [computeAdjustment_summer_weekend a i hw hm1 hm2 hhol]
  refine ⟨by norm_num, by with_unfolding_all decide,
    by with_unfolding_all decide, ?_⟩
  show jsRound (100 * (1 * (5 / 4) * (11 / 10))) = 138
  with_unfolding_all decide

/-- C5 counterexample: 2025-07-04 (serial 20273) is a Friday in July and
also the July 4th holiday; the multiplier is 1.25 × 1.15 × 1.10 = 1.58125,
not the 1.375 the claim asserts for every summer Friday/Saturday. -/
theorem spec_c5_counterexample :
    (dateAttrs 20273).dayOfWeek = 5 ∧ 5 ≤ (dateAttrs 20273).month ∧
    (dateAttrs 20273).month ≤ 8 ∧
    (computeAdjustment (dateAttrs 20273) 5).multiplier = 253 / 160 ∧
    (computeAdjustment (dateAttrs 20273) 5).multiplier ≠ 11 / 8 := by
  with_unfolding_all decide

/-- C5 witness: the amended statement evaluated at 2025-07-11 (serial
20280), a non-holiday Friday in July, index 5. -/
theorem spec_c5_amended_witness :
    (computeAdjustment (dateAttrs 20280) 5).multiplier = 11 / 8 ∧
    "weekend" ∈ (computeAdjustment (dateAttrs 20280) 5).factors ∧
    "seasonal" ∈ (computeAdjustment (dateAttrs 20280) 5).factors ∧
    jsRound (100 * (computeAdjustment (dateAttrs 20280) 5).multiplier) = 138 :=
  spec_c5_amended (dateAttrs 20280) 5 (by decide) (by decide) (by decide)
    (by decide)

/-- C6 (amended): the main variant sorts all suggestions by descending
revenue-impact score |suggestedPrice − currentPrice| × (confidence / 100)
with a stable sort and returns the first 12, so its output is sorted, has
at most 12 elements, and every suggestion left out scores no higher than
any returned one; the fallback variant merely returns the first 10
qualifying suggestions in property-then-date order without sorting. (The
original claim asserted the sorted top-N behaviour for every returned
list; the fallback variant's list is not sorted.) -/
theorem spec_c6_amended :
    (∀ (props : List Property) (today : Nat),
      List.Sorted scoreRel (generatePricingSuggestions props today)) ∧
    (∀ (props : List Property) (today : Nat),
      (generatePricingSuggestions props today).length ≤ 12) ∧
    (∀ (props : List Property) (today : Nat) (s t : AIPricingSuggestion),
      s ∈ allSuggestions props today →
      s ∉ generatePricingSuggestions props today →
      t ∈ generatePricingSuggestions props today →
      score s ≤ score t) ∧
    (∀ (props : List Property) (today : Nat)
      (outcomes : String → FetchOutcome),
      (fbGeneratePricingSuggestions props today outcomes).length ≤ 10) := by
  refine ⟨?_, ?_, ?_, ?_⟩
  · intro props today
    exact List.Pairwise.sublist (List.take_sublist _ _)
      (List.sorted_insertionSort scoreRel _)
  · intro props today
    exact List.length_take_le _ _
  · intro props today s t hs hout ht
    have hsorted : List.Sorted scoreRel
        (List.insertionSort scoreRel (allSuggestions props today)) :=
      List.sorted_insertionSort scoreRel _
    have hsL : s ∈ List.insertionSort scoreRel (allSuggestions props today) :=
      (List.perm_insertionSort scoreRel _).symm.subset hs
    rw [← List.take_append_drop 12
      (List.insertionSort scoreRel (allSuggestions props today))] at hsL
    have hsDrop : s ∈ (List.insertionSort scoreRel
        (allSuggestions props today)).drop 12 := by
      rcases List.mem_append.mp hsL with h | h
      · exact absurd h hout
      · exact h
    have hp : List.Pairwise scoreRel
        ((List.insertionSort scoreRel (allSuggestions props today)).take 12 ++
          (List.insertionSort scoreRel (allSuggestions props today)).drop 12)
        := by
      rw [List.take_append_drop]
      exact hsorted
    exact (List.pairwise_append.mp hp).2.2 t ht s hsDrop
  · intro props today outcomes
    exact List.length_take_le _ _

/-- C6 counterexample: for one property with base price 100 and reference
Monday 2025-07-07, the fallback variant's returned list starts with three
last-minute suggestions (score 0.7 each) followed by a weekend suggestion
(score 36.1): it is not sorted by descending score, refuting the claim
that every returned list is sorted. -/
theorem spec_c6_counterexample :
    ¬ List.Sorted scoreRel
      (fbGeneratePricingSuggestions [prop1] 20276 (fun _ => .netError)) := by
  rw [fbPipelineEval]
  intro h
  have h3 := (List.sorted_cons.mp
    ((List.sorted_cons.mp ((List.sorted_cons.mp h).2)).2)).1
  exact absurd (h3 _ (List.mem_cons_self _ _)) (by with_unfolding_all decide)

/-- C6 witness: with one property and reference Monday 2025-07-07 there
are 14 qualifying suggestions; the second last-minute suggestion
(2025-07-09, score 0.75) is dropped while the weekend suggestion for
2025-07-11 (score 36.1) is kept, and the dropped one scores no higher. -/
theorem spec_c6_amended_witness :
    sDropped ∈ allSuggestions [prop1] 20276 ∧
    sDropped ∉ generatePricingSuggestions [prop1] 20276 ∧
    tKept ∈ generatePricingSuggestions [prop1] 20276 ∧
    score sDropped ≤ score tKept := by
  have h1 : sDropped ∈ allSuggestions [prop1] 20276 := by
    rw [allSuggestionsEval]
    exact List.mem_cons_of_mem _ (List.mem_cons_self _ _)
  have h2 : sDropped ∉ generatePricingSuggestions [prop1] 20276 := by
    rw [mainPipelineEval]
    intro h
    simp only [List.mem_cons, List.not_mem_nil, or_false] at h
    rcases h with h | h | h | h | h | h | h | h | h | h | h | h <;>
      simp [sDropped, tKept, mkSug] at h
  have h3 : tKept ∈ generatePricingSuggestions [prop1] 20276 := by
    rw [mainPipelineEval]
    exact List.mem_cons_self _ _
  exact ⟨h1, h2, h3, spec_c6_amended.2.2.1 [prop1] 20276 sDropped tKept h1 h2 h3⟩

set_option maxRecDepth 4000 in
theorem gprEvalZero :
    generatePriceRecommendations [(20277, false)] (fun _ => 0) =
      [⟨20277, 56, .low⟩] := by
  with_unfolding_all rfl

set_option maxRecDepth 4000 in
theorem gprEvalHalf :
    generatePriceRecommendations [(20277, false)] (fun _ => 1 / 2) =
      [⟨20277, 100, .medium⟩] := by
  with_unfolding_all rfl

/-- C7: the housekeeping calendar's `generatePriceRecommendations` draws
two `Math.random()` values per date, so two runs over the same date range
with the same reference date differ when the random stream differs: the
output is not a pure function of (properties, today). Evaluated at a
single non-weekend date, the stream constantly 0 yields price 56 / low
demand while the stream constantly 0.5 yields price 100 / medium demand.
The `AIPricingService` engines, by contrast, take no random input at all
in this model. -/
theorem spec_c7_random_divergence :
    generatePriceRecommendations [(20277, false)] (fun _ => 0) ≠
    generatePriceRecommendations [(20277, false)] (fun _ => 1 / 2) := by
  rw [gprEvalZero, gprEvalHalf]
  simp

/-- C8: whenever the external AI call fails in any way — every failure
mode of the try-block raises — the catch handler substitutes the
deterministic fallback heuristic's result, and the fallback variant's
`generatePricingSuggestions` equals the purely deterministic fallback
pipeline; no error value reaches its caller. -/
theorem spec_c8_failure_fallback (props : List Property) (today : Nat)
    (outcomes : String → FetchOutcome)
    (hfail : ∀ prompt, (outcomes prompt).isFailure = true) :
    (∀ prompt, callAI (outcomes prompt) prompt today =
      some (generateSmartFallback prompt today)) ∧
    fbGeneratePricingSuggestions props today outcomes =
      fbFallbackPipeline props today :=
  ⟨fun prompt => callAI_failure prompt today (hfail prompt),
    fbGenerate_eq_pipeline props today outcomes hfail⟩

/-- C8 witness: with every fetch failing with a network error, the
fallback variant returns exactly the deterministic pipeline's result. -/
theorem spec_c8_failure_fallback_witness :
    (∀ prompt : String,
      ((fun _ : String => FetchOutcome.netError) prompt).isFailure = true) ∧
    fbGeneratePricingSuggestions [prop1] 20276 (fun _ => .netError) =
      fbFallbackPipeline [prop1] 20276 :=
  ⟨fun _ => rfl,
    (spec_c8_failure_fallback [prop1] 20276 (fun _ => .netError)
      (fun _ => rfl)).2⟩
